import Mathlib

/-!
Shallow embedding of the payment-reconciliation and participant-ID
allocation core of the elevate_registration repository
(registrations/utils.py, registrations/views.py,
registrations/admin_views.py, registrations/models.py,
registrations/management/commands/normalize_participant_ids.py).

Strings are processed through kernel-reducible helpers over character
lists so that concrete instances can be settled by decide.
-/

namespace Elevate

/-! ## String helpers (kernel-reducible models of the Python string ops used) -/

/-- Model of the slash normalization in parse_participant_id_to_canonical:
both the backslash and the fullwidth solidus are replaced by a slash.
(The Python code replaces the one-character strings, which is a per-character map.) -/
def chNorm (c : Char) : Char :=
  if c = '\\' || c = '／' then '/' else c

/-- Model of Python str.strip on a character list. -/
def trimCL (l : List Char) : List Char :=
  ((l.dropWhile Char.isWhitespace).reverse.dropWhile Char.isWhitespace).reverse

/-- Split a character list on the slash character (model of str.split on a slash). -/
def splitSlashAux : List Char → List Char → List (List Char)
  | [], acc => [acc.reverse]
  | c :: cs, acc =>
      if c = '/' then acc.reverse :: splitSlashAux cs []
      else splitSlashAux cs (c :: acc)

def splitSlash (s : String) : List String :=
  (splitSlashAux s.data []).map String.mk

/-- Model of Python str.strip on a String. -/
def pyStrip (s : String) : String := String.mk (trimCL s.data)

/-- Model of Python str.upper (ASCII, which is all the code uses). -/
def pyUpper (s : String) : String := String.mk (s.data.map Char.toUpper)

/-- Model of Python str.isdigit: nonempty and all characters are digits. -/
def isDigits (s : String) : Bool :=
  !s.data.isEmpty && s.data.all Char.isDigit

/-- Model of Python int() on a digit string. -/
def digitsToNat (s : String) : Nat :=
  s.data.foldl (fun n c => 10 * n + (c.toNat - 48)) 0

/-- Does the string start with the given pattern (model of str.startswith)? -/
def hasPre (s pat : String) : Bool :=
  go s.data pat.data
where
  go : List Char → List Char → Bool
    | _, [] => true
    | [], _ :: _ => false
    | c :: cs, p :: ps => c == p && go cs ps

/-- Decimal digits of a natural number, most significant first (fuel-based). -/
def natDigitsAux : Nat → Nat → List Char
  | 0, _ => []
  | f + 1, n =>
      if n < 10 then [Nat.digitChar n]
      else natDigitsAux f (n / 10) ++ [Nat.digitChar (n % 10)]

def natStr (n : Nat) : String := String.mk (natDigitsAux (n + 1) n)

/-- Model of the Python format spec 03d: zero-pad to a minimum width of 3. -/
def pad3 (n : Nat) : String :=
  let s := natStr n
  if s.length ≥ 3 then s
  else String.mk (List.replicate (3 - s.length) '0') ++ s

/-- Model of Python (pid or "").split("/")[-1]: the last slash-separated segment. -/
def lastSeg (s : String) : String :=
  String.mk ((splitSlashAux s.data []).getLastD [])

/-! ## Data model (registrations/models.py) -/

inductive Status
  | PENDING
  | PAID
  | FAILED
deriving DecidableEq

/-- The fields of Registration that the reconciler and allocator read or write. -/
structure Registration where
  registration_fee_paid : Bool
  course_fee_paid : Bool
  status : Status
  participant_id : Option String
  /-- Code of the assigned cohort, none when no cohort is assigned. -/
  cohort : Option String
  paystack_reference : Option String
deriving DecidableEq

/-- Model of Registration.is_fully_paid. -/
def is_fully_paid (r : Registration) : Bool :=
  r.registration_fee_paid && r.course_fee_paid

/-- A ledger Transaction row: unique reference plus the USD amount stored. -/
structure Txn where
  reference : String
  amount : ℚ
deriving DecidableEq

/-- The persistent state a reconciliation event touches: the resolved
Registration and the Transaction ledger rows. -/
structure DB where
  reg : Registration
  txns : List Txn
deriving DecidableEq

/-! ## Participant ID formatting and parsing (registrations/utils.py) -/

/-- Model of format_participant_id_canonical: uppercased, stripped cohort code
and a sequence zero-padded to a minimum of 3 digits. -/
def format_participant_id_canonical (cohort_code : String) (sequence : Nat) : String :=
  "ET/ASPIR/" ++ pyUpper (pyStrip cohort_code) ++ "/" ++ pad3 sequence

/-- The token list parse_participant_id_to_canonical works on: strip, normalize
slashes, split on slash, strip each part, drop empties. -/
def pyParts (s : String) : List String :=
  ((splitSlash (String.mk ((trimCL s.data).map chNorm))).map pyStrip).filter (fun p => p ≠ "")

/-- Find the first purely numeric token (the sequence) in the tokens after the cohort. -/
def findSeqAfter : List String → Option Nat
  | [] => none
  | p :: rest => if isDigits p then some (digitsToNat p) else findSeqAfter rest

/-- Locate a token equal to a known cohort code (C1 or C2) and then the next
numeric token after it. -/
def findCohortAndSeq : List String → Option (String × Nat)
  | [] => none
  | p :: rest =>
      if pyUpper p = "C1" || pyUpper p = "C2" then
        match findSeqAfter rest with
        | some n => some (pyUpper p, n)
        | none => none
      else findCohortAndSeq rest

/-- Model of parse_participant_id_to_canonical. -/
def parse_participant_id_to_canonical (participant_id : String) : Option String :=
  if participant_id = "" then none
  else
    let parts := pyParts participant_id
    if parts.length < 3 then none
    else
      match findCohortAndSeq parts with
      | some (cohort_code, seq_num) => some (format_participant_id_canonical cohort_code seq_num)
      | none => none

/-! ## Participant ID Allocator (registrations/utils.py, generate_participant_id) -/

/-- The fold of generate_participant_id over the registrations whose
participant_id starts with the cohort prefix string: starting from 1, take
max of acc and parsed-trailing-segment + 1 for each digit-tailed ID. -/
def nextSeqFold (ids : List String) : Nat :=
  ids.foldl
    (fun acc p =>
      let part := lastSeg p
      if isDigits part then Nat.max acc (digitsToNat part + 1) else acc)
    1

/-- Model of generate_participant_id. existing is the pool of participant IDs
already assigned in the store (the Django queryset rows). Returns the result
value together with the possibly updated registration. -/
def generate_participant_id (existing : List String) (r : Registration) :
    Option String × Registration :=
  match r.participant_id with
  | some pid => (some pid, r)
  | none =>
    match r.cohort with
    | none => (none, r)
    | some code =>
      let cohort_code := pyUpper (pyStrip code)
      if cohort_code = "" then (none, r)
      else
        let cohortPre := "ET/ASPIR/" ++ cohort_code ++ "/"
        let matching := existing.filter (fun p => hasPre p cohortPre && p ≠ "")
        let next_seq := nextSeqFold matching
        let new_id := format_participant_id_canonical cohort_code next_seq
        (some new_id, { r with participant_id := some new_id })

/-- Model of get_next_available_sequence (used by the normalization command). -/
def get_next_available_sequence (existing : List String) (cohort_code : String) : Nat :=
  let c := pyUpper (pyStrip cohort_code)
  let pre := "ET/ASPIR/" ++ c ++ "/"
  nextSeqFold (existing.filter (fun p => hasPre p pre && p ≠ ""))

/-- Modelled from the spec sentence that the allocator selects
max(existing) + 1 over the trailing numeric segments of the IDs sharing the
cohort prefix, starting at 1 if none exist. Spec-side definition used to
compare the code fold against the stated algorithm. -/
def seqVals (ids : List String) : List Nat :=
  ids.filterMap (fun p =>
    let part := lastSeg p
    if isDigits part then some (digitsToNat part) else none)

def nextSeqSpec (ids : List String) : Nat :=
  match seqVals ids with
  | [] => 1
  | vs => vs.foldl Nat.max 0 + 1

/-- The participant ID the spec algorithm assigns for a cohort code given the
existing pool: the canonical format applied to the next spec sequence over the
IDs sharing the cohort prefix. -/
def allocSpecId (existing : List String) (code : String) : String :=
  format_participant_id_canonical (pyUpper (pyStrip code))
    (nextSeqSpec (existing.filter (fun p =>
      hasPre p ("ET/ASPIR/" ++ pyUpper (pyStrip code) ++ "/") && p ≠ "")))

/-! ## Payment State Reconciler: Squad webhook (registrations/views.py, squad_webhook) -/

/-- The successful-outcome state transition of squad_webhook. payment_type is
the metadata payment_type after its Python default (registration_fee). -/
def applySquadSuccess (payment_type transaction_ref : String) (r : Registration) :
    Registration :=
  if payment_type = "full_payment" || hasPre transaction_ref "ASPIR-FULL-" then
    { r with registration_fee_paid := true, course_fee_paid := true, status := .PAID }
  else if payment_type = "registration_fee" || hasPre transaction_ref "ASPIR-REG-" then
    { r with registration_fee_paid := true, status := .PENDING }
  else if payment_type = "course_fee" || hasPre transaction_ref "ASPIR-COURSE-" then
    let r1 := { r with course_fee_paid := true }
    { r1 with
      status := if r1.registration_fee_paid && r1.course_fee_paid then .PAID else .PENDING }
  else
    { r with registration_fee_paid := true, course_fee_paid := true, status := .PAID }

/-- A charge_successful event as squad_webhook reads it after JSON parsing:
transaction_status (compared lowercased to success), the metadata payment_type
(after the Python default), the reference, the subunit amount, and the
effective exchange rate (metadata value, or the cached rate when absent). -/
structure SquadEvent where
  transaction_status : String
  payment_type : String
  transaction_ref : String
  amount : ℚ
  exchange_rate : ℚ

/-- Model of Python str.lower (ASCII). -/
def pyLower (s : String) : String := String.mk (s.data.map Char.toLower)

/-- Model of squad_webhook on a charge_successful event whose reference
resolves to db.reg. Returns the new persistent state and the HTTP status.
The registration is saved before the Transaction insert, so when a row with
the same reference already exists the unique constraint rejects the insert
(IntegrityError, HTTP 500) but the registration update persists. Email
sending has no effect on this state and is omitted. -/
def squad_webhook (e : SquadEvent) (db : DB) : DB × Nat :=
  if pyLower e.transaction_status = "success" then
    let r' := applySquadSuccess e.payment_type e.transaction_ref db.reg
    let amount_in_usd := e.amount / 100 / e.exchange_rate
    if db.txns.any (fun t => t.reference = e.transaction_ref) then
      ({ reg := r', txns := db.txns }, 500)
    else
      ({ reg := r',
         txns := db.txns ++ [{ reference := e.transaction_ref, amount := amount_in_usd }] },
       200)
  else
    ({ db with reg := { db.reg with status := .FAILED } }, 200)

/-! ## Payment State Reconciler: Paystack webhook (registrations/views.py, paystack_webhook) -/

/-- The charge.success state transition of paystack_webhook: the metadata
payment_type is first overridden from the reference prefix, then the same
if-chain as the Squad webhook is applied. -/
def applyPaystackSuccess (meta_payment_type reference : String) (r : Registration) :
    Registration :=
  let payment_type :=
    if hasPre reference "ASPIR-FULL-" then "full_payment"
    else if hasPre reference "ASPIR-REG-" then "registration_fee"
    else if hasPre reference "ASPIR-COURSE-" then "course_fee"
    else meta_payment_type
  if payment_type = "full_payment" || hasPre reference "ASPIR-FULL-" then
    { r with registration_fee_paid := true, course_fee_paid := true, status := .PAID }
  else if payment_type = "registration_fee" || hasPre reference "ASPIR-REG-" then
    { r with registration_fee_paid := true, status := .PENDING }
  else if payment_type = "course_fee" || hasPre reference "ASPIR-COURSE-" then
    { r with course_fee_paid := true,
             status := if r.registration_fee_paid then .PAID else .PENDING }
  else
    { r with registration_fee_paid := true, course_fee_paid := true, status := .PAID }

/-! ## Payment State Reconciler: manual path (registrations/admin_views.py, admin_reconcile_payment) -/

/-- The Squad verify-endpoint response data after the handler has already
required transaction_status to equal success (case-insensitively). -/
structure VerifiedTxn where
  transaction_amount : ℚ
  /-- transaction_currency_id, or currency, or the USD default. -/
  currency : String
  /-- payment_type from the meta map, when present. -/
  meta_payment_type : Option String

/-- The state transition of admin_reconcile_payment on a verified successful
transaction. Unlike the webhook there is no fallback branch: an unrecognized
payment type changes nothing. -/
def adminApplySuccess (payment_type reference : String) (r : Registration) :
    Registration :=
  if payment_type = "full_payment" || hasPre reference "ASPIR-FULL-" then
    { r with registration_fee_paid := true, course_fee_paid := true, status := .PAID }
  else if payment_type = "registration_fee" || hasPre reference "ASPIR-REG-" then
    { r with registration_fee_paid := true, status := .PENDING }
  else if payment_type = "course_fee" || hasPre reference "ASPIR-COURSE-" then
    let r1 := { r with course_fee_paid := true }
    { r1 with
      status := if r1.registration_fee_paid && r1.course_fee_paid then .PAID else .PENDING }
  else r

/-- Model of the state-changing part of admin_reconcile_payment after a
successful gateway verification: the already-recorded check, the
payment-type classification from the reference prefix, the currency-aware
amount conversion, the state transition (with no fallback branch), the
Transaction get_or_create, and the allocator invocations in the email block.
existing is the pool of assigned participant IDs for the allocator. Returns
the new state and whether the allocator was invoked. -/
def admin_reconcile (reference : String) (txn : VerifiedTxn) (rate : ℚ)
    (existing : List String) (db : DB) : DB × Bool :=
  if db.txns.any (fun t => t.reference = reference) then (db, false)
  else
    let payment_type :=
      if hasPre reference "ASPIR-FULL-" then "full_payment"
      else if hasPre reference "ASPIR-COURSE-" then "course_fee"
      else if hasPre reference "ASPIR-REG-" then "registration_fee"
      else txn.meta_payment_type.getD "registration_fee"
    let amount_in_usd :=
      if pyUpper txn.currency = "USD" then txn.transaction_amount / 100
      else txn.transaction_amount / 100 / rate
    let r' := adminApplySuccess payment_type reference db.reg
    let txns' := db.txns ++ [{ reference := reference, amount := amount_in_usd }]
    let invoke_alloc :=
      (payment_type = "full_payment" || hasPre reference "ASPIR-FULL-") ||
      (!(payment_type = "full_payment" || hasPre reference "ASPIR-FULL-") &&
       !(payment_type = "registration_fee" || hasPre reference "ASPIR-REG-") &&
       (payment_type = "course_fee" || hasPre reference "ASPIR-COURSE-") &&
       is_fully_paid r')
    let r'' := if invoke_alloc then (generate_participant_id existing r').2 else r'
    ({ reg := r'', txns := txns' }, invoke_alloc)

/-! ## Course-fee initiation guard (registrations/views.py, pay_course_fee) -/

inductive CourseFeeOutcome
  | rejected (error : String) (httpStatus : Nat)
  | initiated (reference : String)
deriving DecidableEq

/-- Model of pay_course_fee up to the outbound gateway call: the two guard
checks, then (on the Paystack branch) the paystack_reference save. The
reference argument stands for the generated unique attempt reference. -/
def pay_course_fee (r : Registration) (gateway reference : String) :
    Registration × CourseFeeOutcome :=
  if r.course_fee_paid then (r, .rejected "Course fee already paid" 400)
  else if !r.registration_fee_paid then
    (r, .rejected "Registration fee must be paid first" 400)
  else if gateway = "paystack" then
    ({ r with paystack_reference := some reference }, .initiated reference)
  else (r, .initiated reference)

/-! ## Normalization command (management/commands/normalize_participant_ids.py) -/

/-- Model of one loop iteration of Command.handle for a registration whose
participant_id is set: parse to canonical, skip when invalid or already
canonical, otherwise write the canonical ID, or the next available sequence
for the cohort when another registration already holds the canonical ID.
others is the pool of participant IDs of the other registrations. -/
def normalize_handle_one (others : List String) (reg : Registration) : Registration :=
  match reg.participant_id with
  | none => reg
  | some current =>
    if current = "" then reg
    else
      match parse_participant_id_to_canonical current with
      | none => reg
      | some canonical =>
        if canonical = current then reg
        else if others.contains canonical then
          match (splitSlash canonical).get? 2 with
          | none => reg
          | some cohort_code =>
              let next_seq := get_next_available_sequence others cohort_code
              let new_id := format_participant_id_canonical cohort_code next_seq
              { reg with participant_id := some new_id }
        else { reg with participant_id := some canonical }

/-! ## Theorems -/

/-- C9: format_participant_id_canonical of cohort c1 and sequence 7 is
ET/ASPIR/C1/007; parsing that string back yields cohort C1 and sequence 7
(hence its canonical form is itself); and parsing the legacy string
ET/ASPIR/C1/S/0016 with an extra dimension segment yields ET/ASPIR/C1/016. -/
theorem C9_parse_roundtrip_and_legacy :
    format_participant_id_canonical "c1" 7 = "ET/ASPIR/C1/007" ∧
    findCohortAndSeq (pyParts "ET/ASPIR/C1/007") = some ("C1", 7) ∧
    parse_participant_id_to_canonical "ET/ASPIR/C1/007" = some "ET/ASPIR/C1/007" ∧
    parse_participant_id_to_canonical "ET/ASPIR/C1/S/0016" = some "ET/ASPIR/C1/016" := by
  refine ⟨?_, ?_, ?_, ?_⟩ <;> decide

/-- C10: pay_course_fee rejects with HTTP 400 and no state change whenever the
registration fee is unpaid or the course fee is already paid (with the message
Course fee already paid when the course fee is paid, and Registration fee must
be paid first when only the registration fee is missing), and initiates a
charge exactly when the registration fee is paid and the course fee is not. -/
theorem C10_course_fee_initiation_guard (r : Registration) (gateway reference : String) :
    (r.registration_fee_paid = false ∨ r.course_fee_paid = true →
      (pay_course_fee r gateway reference).1 = r ∧
      ∃ msg, (pay_course_fee r gateway reference).2 = .rejected msg 400) ∧
    (r.course_fee_paid = true →
      (pay_course_fee r gateway reference).2 = .rejected "Course fee already paid" 400) ∧
    (r.course_fee_paid = false → r.registration_fee_paid = false →
      (pay_course_fee r gateway reference).2 =
        .rejected "Registration fee must be paid first" 400) ∧
    (r.registration_fee_paid = true → r.course_fee_paid = false →
      (pay_course_fee r gateway reference).2 = .initiated reference) := by
  unfold pay_course_fee
  rcases r with ⟨rf, cf, st, pid, co, pr⟩
  cases rf <;> cases cf <;> by_cases hg : gateway = "paystack" <;>
    simp [hg]

theorem C10_course_fee_initiation_guard_witness :
    ((false = false ∨ true = true) ∧
      (pay_course_fee ⟨false, true, .PENDING, none, none, none⟩ "squad" "ASPIR-COURSE-x").1 =
        ⟨false, true, .PENDING, none, none, none⟩) ∧
    (pay_course_fee ⟨true, false, .PENDING, none, none, none⟩ "squad" "ASPIR-COURSE-x").2 =
      CourseFeeOutcome.initiated "ASPIR-COURSE-x" := by
  refine ⟨⟨Or.inl rfl, ?_⟩, ?_⟩
  · exact ((C10_course_fee_initiation_guard
      ⟨false, true, .PENDING, none, none, none⟩ "squad" "ASPIR-COURSE-x").1
        (Or.inr rfl)).1
  · exact (C10_course_fee_initiation_guard
      ⟨true, false, .PENDING, none, none, none⟩ "squad" "ASPIR-COURSE-x").2.2.2 rfl rfl

/-- C5: on a failed-outcome event the Squad webhook sets status to FAILED and
leaves both fee flags (and the participant ID and the Transaction ledger)
untouched, answering HTTP 200. -/
theorem C5_failed_outcome_frame (e : SquadEvent) (db : DB)
    (h : pyLower e.transaction_status ≠ "success") :
    (squad_webhook e db).1.reg.registration_fee_paid = db.reg.registration_fee_paid ∧
    (squad_webhook e db).1.reg.course_fee_paid = db.reg.course_fee_paid ∧
    (squad_webhook e db).1.reg.status = Status.FAILED ∧
    (squad_webhook e db).1.reg.participant_id = db.reg.participant_id ∧
    (squad_webhook e db).1.txns = db.txns ∧
    (squad_webhook e db).2 = 200 := by
  unfold squad_webhook
  simp [h]

theorem C5_failed_outcome_frame_witness :
    (squad_webhook ⟨"failed", "registration_fee", "ASPIR-REG-x", 5000, 1500⟩
        ⟨⟨true, false, .PENDING, none, none, none⟩, []⟩).1.reg.registration_fee_paid = true ∧
    (squad_webhook ⟨"failed", "registration_fee", "ASPIR-REG-x", 5000, 1500⟩
        ⟨⟨true, false, .PENDING, none, none, none⟩, []⟩).1.reg.status = Status.FAILED := by
  have h := C5_failed_outcome_frame
    ⟨"failed", "registration_fee", "ASPIR-REG-x", 5000, 1500⟩
    ⟨⟨true, false, .PENDING, none, none, none⟩, []⟩ (by decide)
  exact ⟨h.1, h.2.2.1⟩

/-- C7: generate_participant_id returns an existing participant_id unchanged
and mutates nothing (idempotence), and returns none and mutates nothing when
no cohort is assigned. -/
theorem C7_allocator_preconditions (existing : List String) (r : Registration) :
    (∀ pid, r.participant_id = some pid →
      generate_participant_id existing r = (some pid, r)) ∧
    (r.participant_id = none → r.cohort = none →
      generate_participant_id existing r = (none, r)) := by
  constructor
  · intro pid hpid
    unfold generate_participant_id
    rw [hpid]
  · intro hpid hco
    unfold generate_participant_id
    rw [hpid, hco]

theorem C7_allocator_preconditions_witness :
    generate_participant_id ["ET/ASPIR/C1/003"]
      ⟨true, true, .PAID, some "ET/ASPIR/C1/001", some "C1", none⟩ =
      (some "ET/ASPIR/C1/001",
       ⟨true, true, .PAID, some "ET/ASPIR/C1/001", some "C1", none⟩) ∧
    generate_participant_id []
      ⟨true, true, .PAID, none, none, none⟩ = (none, ⟨true, true, .PAID, none, none, none⟩) := by
  constructor
  · exact (C7_allocator_preconditions ["ET/ASPIR/C1/003"]
      ⟨true, true, .PAID, some "ET/ASPIR/C1/001", some "C1", none⟩).1
      "ET/ASPIR/C1/001" rfl
  · exact (C7_allocator_preconditions []
      ⟨true, true, .PAID, none, none, none⟩).2 rfl rfl

/-- The payment type the Paystack webhook effectively dispatches on: the
reference prefix overrides the metadata payment_type. -/
def paystackEffType (meta reference : String) : String :=
  if hasPre reference "ASPIR-FULL-" then "full_payment"
  else if hasPre reference "ASPIR-REG-" then "registration_fee"
  else if hasPre reference "ASPIR-COURSE-" then "course_fee"
  else meta

/-- True when the successful-outcome transition takes the registration-fee
branch (the full-payment branch is not taken and the registration-fee
condition holds). -/
def regBranch (payment_type reference : String) : Bool :=
  !(payment_type = "full_payment" || hasPre reference "ASPIR-FULL-") &&
  (payment_type = "registration_fee" || hasPre reference "ASPIR-REG-")

theorem applyPaystack_eq (meta reference : String) (r : Registration) :
    applyPaystackSuccess meta reference r =
      applySquadSuccess (paystackEffType meta reference) reference r := by
  unfold applyPaystackSuccess applySquadSuccess paystackEffType
  cases hreg : r.registration_fee_paid <;> simp [hreg]

theorem squad_status_iff (pt ref : String) (r : Registration) :
    ((applySquadSuccess pt ref r).status = Status.PAID ↔
      regBranch pt ref = false ∧
      (applySquadSuccess pt ref r).registration_fee_paid = true ∧
      (applySquadSuccess pt ref r).course_fee_paid = true) ∧
    (regBranch pt ref = true → (applySquadSuccess pt ref r).status = Status.PENDING) := by
  unfold applySquadSuccess regBranch
  cases hc1 : (pt = "full_payment" || hasPre ref "ASPIR-FULL-") <;>
  cases hc2 : (pt = "registration_fee" || hasPre ref "ASPIR-REG-") <;>
  cases hc3 : (pt = "course_fee" || hasPre ref "ASPIR-COURSE-") <;>
  cases hreg : r.registration_fee_paid <;>
  cases hcourse : r.course_fee_paid <;>
  simp [hc1, hc2, hc3, hreg, hcourse]

/-- C2 counterexample: a successful registration_fee event on a registration
whose course fee is already paid leaves both fee flags true but status
PENDING, not PAID, so the claimed biconditional fails on the code. -/
theorem C2_counterexample :
    (applySquadSuccess "registration_fee" "ASPIR-REG-x"
      ⟨false, true, .PENDING, none, none, none⟩).registration_fee_paid = true ∧
    (applySquadSuccess "registration_fee" "ASPIR-REG-x"
      ⟨false, true, .PENDING, none, none, none⟩).course_fee_paid = true ∧
    (applySquadSuccess "registration_fee" "ASPIR-REG-x"
      ⟨false, true, .PENDING, none, none, none⟩).status ≠ Status.PAID ∧
    (applySquadSuccess "registration_fee" "ASPIR-REG-x"
      ⟨false, true, .PENDING, none, none, none⟩).status = Status.PENDING := by
  decide

/-- C2 amended: after a successful transition of either webhook, status is
PAID exactly when the transition did not take the registration-fee branch and
both fee flags are true afterwards; the registration-fee branch always yields
status PENDING, even when the course fee was already paid. -/
theorem C2_status_derivation_amended (payment_type meta reference : String)
    (r : Registration) :
    (((applySquadSuccess payment_type reference r).status = Status.PAID ↔
        regBranch payment_type reference = false ∧
        (applySquadSuccess payment_type reference r).registration_fee_paid = true ∧
        (applySquadSuccess payment_type reference r).course_fee_paid = true) ∧
      (regBranch payment_type reference = true →
        (applySquadSuccess payment_type reference r).status = Status.PENDING)) ∧
    (((applyPaystackSuccess meta reference r).status = Status.PAID ↔
        regBranch (paystackEffType meta reference) reference = false ∧
        (applyPaystackSuccess meta reference r).registration_fee_paid = true ∧
        (applyPaystackSuccess meta reference r).course_fee_paid = true) ∧
      (regBranch (paystackEffType meta reference) reference = true →
        (applyPaystackSuccess meta reference r).status = Status.PENDING)) := by
  refine ⟨squad_status_iff _ _ _, ?_⟩
  rw [applyPaystack_eq]
  exact squad_status_iff _ _ _

theorem C2_status_derivation_amended_witness :
    regBranch "registration_fee" "ASPIR-REG-x" = true ∧
    (applySquadSuccess "registration_fee" "ASPIR-REG-x"
      ⟨false, true, .PENDING, none, none, none⟩).status = Status.PENDING ∧
    (applyPaystackSuccess "" "ASPIR-FULL-x"
      ⟨false, false, .PENDING, none, none, none⟩).status = Status.PAID := by
  refine ⟨by decide, ?_, ?_⟩
  · exact (C2_status_derivation_amended "registration_fee" "" "ASPIR-REG-x"
      ⟨false, true, .PENDING, none, none, none⟩).1.2 (by decide)
  · exact ((C2_status_derivation_amended "" "" "ASPIR-FULL-x"
      ⟨false, false, .PENDING, none, none, none⟩).2.1).2 ⟨by decide, by decide, by decide⟩

theorem applySquad_flags_idem (pt ref : String) (r : Registration) :
    (applySquadSuccess pt ref (applySquadSuccess pt ref r)).registration_fee_paid =
      (applySquadSuccess pt ref r).registration_fee_paid ∧
    (applySquadSuccess pt ref (applySquadSuccess pt ref r)).course_fee_paid =
      (applySquadSuccess pt ref r).course_fee_paid := by
  unfold applySquadSuccess
  cases hc1 : (pt = "full_payment" || hasPre ref "ASPIR-FULL-") <;>
  cases hc2 : (pt = "registration_fee" || hasPre ref "ASPIR-REG-") <;>
  cases hc3 : (pt = "course_fee" || hasPre ref "ASPIR-COURSE-") <;>
  simp [hc1, hc2, hc3]

theorem applySquad_pid (pt ref : String) (r : Registration) :
    (applySquadSuccess pt ref r).participant_id = r.participant_id := by
  unfold applySquadSuccess
  cases hc1 : (pt = "full_payment" || hasPre ref "ASPIR-FULL-") <;>
  cases hc2 : (pt = "registration_fee" || hasPre ref "ASPIR-REG-") <;>
  cases hc3 : (pt = "course_fee" || hasPre ref "ASPIR-COURSE-") <;>
  simp [hc1, hc2, hc3]

theorem adminApply_pid (pt ref : String) (r : Registration) :
    (adminApplySuccess pt ref r).participant_id = r.participant_id := by
  unfold adminApplySuccess
  cases hc1 : (pt = "full_payment" || hasPre ref "ASPIR-FULL-") <;>
  cases hc2 : (pt = "registration_fee" || hasPre ref "ASPIR-REG-") <;>
  cases hc3 : (pt = "course_fee" || hasPre ref "ASPIR-COURSE-") <;>
  simp [hc1, hc2, hc3]

theorem adminApply_cohort (pt ref : String) (r : Registration) :
    (adminApplySuccess pt ref r).cohort = r.cohort := by
  unfold adminApplySuccess
  cases hc1 : (pt = "full_payment" || hasPre ref "ASPIR-FULL-") <;>
  cases hc2 : (pt = "registration_fee" || hasPre ref "ASPIR-REG-") <;>
  cases hc3 : (pt = "course_fee" || hasPre ref "ASPIR-COURSE-") <;>
  simp [hc1, hc2, hc3]

theorem squad_webhook_dup (e : SquadEvent) (d : DB)
    (hs : pyLower e.transaction_status = "success")
    (hdup : d.txns.any (fun t => t.reference = e.transaction_ref) = true) :
    (squad_webhook e d).1 =
      ⟨applySquadSuccess e.payment_type e.transaction_ref d.reg, d.txns⟩ := by
  unfold squad_webhook
  simp [hs, hdup]

theorem squad_webhook_fresh (e : SquadEvent) (d : DB)
    (hs : pyLower e.transaction_status = "success")
    (hdup : d.txns.any (fun t => t.reference = e.transaction_ref) = false) :
    (squad_webhook e d).1 =
      ⟨applySquadSuccess e.payment_type e.transaction_ref d.reg,
       d.txns ++ [Txn.mk e.transaction_ref (e.amount / 100 / e.exchange_rate)]⟩ := by
  unfold squad_webhook
  simp [hs, hdup]

/-- C1 counterexample: the Squad webhook performs no existing-Transaction
check: on a state that already holds a Transaction for the reference, a
redelivered successful event still rewrites the registration (here it
changes status FAILED to PENDING) and answers HTTP 500 from the rejected
duplicate insert, so the event is not a state no-op. -/
theorem C1_counterexample :
    (squad_webhook ⟨"success", "registration_fee", "ASPIR-REG-x", 5000, 1500⟩
      ⟨⟨true, false, .FAILED, none, none, none⟩, [Txn.mk "ASPIR-REG-x" 1]⟩).1.reg ≠
      (⟨true, false, .FAILED, none, none, none⟩ : Registration) ∧
    (squad_webhook ⟨"success", "registration_fee", "ASPIR-REG-x", 5000, 1500⟩
      ⟨⟨true, false, .FAILED, none, none, none⟩, [Txn.mk "ASPIR-REG-x" 1]⟩).2 = 500 := by
  decide

/-- C1 amended: only the manual reconciliation path checks for an existing
Transaction with the reference and then changes nothing; the Squad webhook
re-applies the transition unconditionally, but because the transition is
idempotent on the fee flags and the reference is unique in the ledger,
applying the same successful payload twice still leaves the fee flags
unchanged between the applications and exactly one Transaction row for the
reference. -/
theorem C1_reconciler_idempotence_amended (reference : String) (vtxn : VerifiedTxn)
    (rate : ℚ) (existing : List String) (db : DB) (e : SquadEvent) :
    (db.txns.any (fun t => t.reference = reference) = true →
      admin_reconcile reference vtxn rate existing db = (db, false)) ∧
    (pyLower e.transaction_status = "success" →
      ((squad_webhook e (squad_webhook e db).1).1.reg.registration_fee_paid =
        (squad_webhook e db).1.reg.registration_fee_paid ∧
       (squad_webhook e (squad_webhook e db).1).1.reg.course_fee_paid =
        (squad_webhook e db).1.reg.course_fee_paid ∧
       (squad_webhook e (squad_webhook e db).1).1.txns = (squad_webhook e db).1.txns ∧
       (db.txns.countP (fun t => t.reference = e.transaction_ref) = 0 →
         (squad_webhook e db).1.txns.countP
           (fun t => t.reference = e.transaction_ref) = 1 ∧
         (squad_webhook e (squad_webhook e db).1).1.txns.countP
           (fun t => t.reference = e.transaction_ref) = 1))) := by
  constructor
  · intro h
    unfold admin_reconcile
    simp [h]
  · intro hs
    by_cases hdup : db.txns.any (fun t => t.reference = e.transaction_ref) = true
    · rw [squad_webhook_dup e db hs hdup]
      rw [squad_webhook_dup e
        ⟨applySquadSuccess e.payment_type e.transaction_ref db.reg, db.txns⟩ hs hdup]
      refine ⟨(applySquad_flags_idem _ _ _).1, (applySquad_flags_idem _ _ _).2, rfl, ?_⟩
      intro hzero
      exfalso
      rw [List.any_eq_true] at hdup
      rw [List.countP_eq_zero] at hzero
      obtain ⟨t, ht, hteq⟩ := hdup
      exact absurd hteq (by simpa using hzero t ht)
    · have hdupf : db.txns.any (fun t => t.reference = e.transaction_ref) = false := by
        simpa using hdup
      rw [squad_webhook_fresh e db hs hdupf]
      have hany : ((db.txns ++ [Txn.mk e.transaction_ref
          (e.amount / 100 / e.exchange_rate)]).any
            (fun t => t.reference = e.transaction_ref)) = true := by
        simp
      rw [squad_webhook_dup e
        ⟨applySquadSuccess e.payment_type e.transaction_ref db.reg,
         db.txns ++ [Txn.mk e.transaction_ref (e.amount / 100 / e.exchange_rate)]⟩ hs hany]
      refine ⟨(applySquad_flags_idem _ _ _).1, (applySquad_flags_idem _ _ _).2, rfl, ?_⟩
      intro hzero
      constructor <;> simp [List.countP_append, hzero]

theorem C1_reconciler_idempotence_amended_witness :
    admin_reconcile "REF1" ⟨1500, "USD", none⟩ 1500 []
        ⟨⟨true, false, .PENDING, none, none, none⟩, [Txn.mk "REF1" 15]⟩ =
      (⟨⟨true, false, .PENDING, none, none, none⟩, [Txn.mk "REF1" 15]⟩, false) ∧
    (squad_webhook ⟨"success", "registration_fee", "ASPIR-REG-x", 5000, 1500⟩
        ⟨⟨false, false, .PENDING, none, none, none⟩, []⟩).1.txns.countP
      (fun t => t.reference = "ASPIR-REG-x") = 1 := by
  constructor
  · exact (C1_reconciler_idempotence_amended "REF1" ⟨1500, "USD", none⟩ 1500 []
      ⟨⟨true, false, .PENDING, none, none, none⟩, [Txn.mk "REF1" 15]⟩
      ⟨"success", "registration_fee", "ASPIR-REG-x", 5000, 1500⟩).1 (by decide)
  · exact (((C1_reconciler_idempotence_amended "REF1" ⟨1500, "USD", none⟩ 1500 []
      ⟨⟨false, false, .PENDING, none, none, none⟩, []⟩
      ⟨"success", "registration_fee", "ASPIR-REG-x", 5000, 1500⟩).2
      (by decide)).2.2.2 (by decide)).1

/-- C3 counterexample: a successful full-payment event through the Squad
webhook leaves the registration fully paid with a cohort assigned, yet the
participant_id stays none — the webhook path never invokes the allocator. -/
theorem C3_counterexample :
    is_fully_paid (squad_webhook ⟨"success", "full_payment", "ASPIR-FULL-x", 15000, 1500⟩
      ⟨⟨false, false, .PENDING, none, some "C1", none⟩, []⟩).1.reg = true ∧
    (squad_webhook ⟨"success", "full_payment", "ASPIR-FULL-x", 15000, 1500⟩
      ⟨⟨false, false, .PENDING, none, some "C1", none⟩, []⟩).1.reg.participant_id = none := by
  decide

/-- C3 amended: the Squad webhook never changes participant_id on any event;
only the manual reconciliation path invokes the allocator, and there a
full-payment reference does invoke it (assigning a participant_id when a
cohort is present and none is set), a course-fee reference invokes it exactly
when the registration is fully paid after the transition (that is, when the
registration fee was already paid; the allocator then assigns a
participant_id under the same conditions), while a registration-fee
reference never does, even though the registration may have become fully
paid. -/
theorem C3_allocator_invocation_amended (e : SquadEvent) (reference : String)
    (vtxn : VerifiedTxn) (rate : ℚ) (existing : List String) (db : DB) :
    ((squad_webhook e db).1.reg.participant_id = db.reg.participant_id) ∧
    (hasPre reference "ASPIR-FULL-" = true →
      db.txns.any (fun t => t.reference = reference) = false →
      (admin_reconcile reference vtxn rate existing db).2 = true ∧
      (∀ c, db.reg.participant_id = none → db.reg.cohort = some c →
        pyUpper (pyStrip c) ≠ "" →
        ((admin_reconcile reference vtxn rate existing db).1.reg.participant_id).isSome =
          true)) ∧
    (hasPre reference "ASPIR-FULL-" = false →
      hasPre reference "ASPIR-COURSE-" = false →
      hasPre reference "ASPIR-REG-" = true →
      (admin_reconcile reference vtxn rate existing db).2 = false) ∧
    (hasPre reference "ASPIR-FULL-" = false →
      hasPre reference "ASPIR-COURSE-" = true →
      hasPre reference "ASPIR-REG-" = false →
      db.txns.any (fun t => t.reference = reference) = false →
      ((admin_reconcile reference vtxn rate existing db).2 =
          is_fully_paid (adminApplySuccess "course_fee" reference db.reg) ∧
        is_fully_paid (adminApplySuccess "course_fee" reference db.reg) =
          db.reg.registration_fee_paid ∧
        (db.reg.registration_fee_paid = true →
          ∀ c, db.reg.participant_id = none → db.reg.cohort = some c →
            pyUpper (pyStrip c) ≠ "" →
            ((admin_reconcile reference vtxn rate existing db).1.reg.participant_id).isSome =
              true))) := by
  refine ⟨?_, ?_, ?_, ?_⟩
  · by_cases hs : pyLower e.transaction_status = "success"
    · by_cases hdup : db.txns.any (fun t => t.reference = e.transaction_ref) = true
      · rw [squad_webhook_dup e db hs hdup]
        exact applySquad_pid _ _ _
      · have hdupf : db.txns.any (fun t => t.reference = e.transaction_ref) = false := by
          simpa using hdup
        rw [squad_webhook_fresh e db hs hdupf]
        exact applySquad_pid _ _ _
    · unfold squad_webhook
      simp [hs]
  · intro hF hdup
    unfold admin_reconcile
    simp only [hdup, hF]
    constructor
    · simp
    · intro c hpid hco hcode
      simp only [Bool.false_eq_true, if_false, if_true]
      simp [generate_participant_id, adminApply_pid, adminApply_cohort, hpid, hco, hcode]
  · intro hF hC hR
    unfold admin_reconcile
    simp [hF, hC, hR]
    split <;> rfl
  · intro hF hC hR hdup
    have hfp : is_fully_paid (adminApplySuccess "course_fee" reference db.reg) =
        db.reg.registration_fee_paid := by
      unfold adminApplySuccess is_fully_paid
      simp [hF, hR, hC]
    refine ⟨?_, hfp, ?_⟩
    · unfold admin_reconcile
      simp only [hdup, hF, hC, hR]
      simp [is_fully_paid]
    · intro hreg c hpid hco hcode
      unfold admin_reconcile
      simp only [hdup, hF, hC, hR]
      simp only [Bool.false_eq_true, if_false, if_true]
      simp [generate_participant_id, adminApply_pid, adminApply_cohort, hpid, hco, hcode,
        is_fully_paid, adminApplySuccess, hreg, hF, hC, hR]

theorem C3_allocator_invocation_amended_witness :
    (admin_reconcile "ASPIR-FULL-x" ⟨15000, "USD", none⟩ 1500 []
      ⟨⟨false, false, .PENDING, none, some "C1", none⟩, []⟩).2 = true ∧
    ((admin_reconcile "ASPIR-FULL-x" ⟨15000, "USD", none⟩ 1500 []
      ⟨⟨false, false, .PENDING, none, some "C1", none⟩, []⟩).1.reg.participant_id).isSome =
      true ∧
    (admin_reconcile "ASPIR-REG-x" ⟨15000, "USD", none⟩ 1500 []
      ⟨⟨false, true, .PENDING, none, some "C1", none⟩, []⟩).2 = false ∧
    (admin_reconcile "ASPIR-COURSE-x" ⟨10000, "USD", none⟩ 1500 []
      ⟨⟨true, false, .PENDING, none, some "C1", none⟩, []⟩).2 = true ∧
    ((admin_reconcile "ASPIR-COURSE-x" ⟨10000, "USD", none⟩ 1500 []
      ⟨⟨true, false, .PENDING, none, some "C1", none⟩, []⟩).1.reg.participant_id).isSome =
      true ∧
    (admin_reconcile "ASPIR-COURSE-x" ⟨10000, "USD", none⟩ 1500 []
      ⟨⟨false, false, .PENDING, none, some "C1", none⟩, []⟩).2 = false := by
  have h := (C3_allocator_invocation_amended
    ⟨"success", "full_payment", "ASPIR-FULL-x", 15000, 1500⟩ "ASPIR-FULL-x"
    ⟨15000, "USD", none⟩ 1500 []
    ⟨⟨false, false, .PENDING, none, some "C1", none⟩, []⟩).2.1 (by decide) (by decide)
  have hc := (C3_allocator_invocation_amended
    ⟨"success", "course_fee", "ASPIR-COURSE-x", 10000, 1500⟩ "ASPIR-COURSE-x"
    ⟨10000, "USD", none⟩ 1500 []
    ⟨⟨true, false, .PENDING, none, some "C1", none⟩, []⟩).2.2.2
    (by decide) (by decide) (by decide) (by decide)
  have hc0 := (C3_allocator_invocation_amended
    ⟨"success", "course_fee", "ASPIR-COURSE-x", 10000, 1500⟩ "ASPIR-COURSE-x"
    ⟨10000, "USD", none⟩ 1500 []
    ⟨⟨false, false, .PENDING, none, some "C1", none⟩, []⟩).2.2.2
    (by decide) (by decide) (by decide) (by decide)
  refine ⟨h.1, h.2 "C1" rfl rfl (by decide), ?_, hc.1.trans (by decide),
    hc.2.2 rfl "C1" rfl rfl (by decide), hc0.1.trans (by decide)⟩
  exact (C3_allocator_invocation_amended
    ⟨"success", "full_payment", "ASPIR-FULL-x", 15000, 1500⟩ "ASPIR-REG-x"
    ⟨15000, "USD", none⟩ 1500 []
    ⟨⟨false, true, .PENDING, none, some "C1", none⟩, []⟩).2.2.1 (by decide) (by decide)
    (by decide)

/-- C4 counterexample: on the manual path (the only currency-aware path), a
verified transaction of 15000 subunits in NGN at rate 1500 is recorded as
amount 0.10 USD, not the 10.00 the claim states. -/
theorem C4_counterexample :
    (admin_reconcile "ASPIR-FULL-x" ⟨15000, "NGN", none⟩ 1500 []
      ⟨⟨false, false, .PENDING, none, none, none⟩, []⟩).1.txns =
      [Txn.mk "ASPIR-FULL-x" ((15000 : ℚ) / 100 / 1500)] ∧
    (15000 : ℚ) / 100 / 1500 = 1 / 10 ∧
    ((1 : ℚ) / 10) ≠ 10 := by
  refine ⟨rfl, by norm_num, by norm_num⟩

/-- C4 amended: the manual reconciliation path records subunits divided by 100
when the verified currency is USD and additionally divided by the rate
otherwise (so 15000 NGN subunits at rate 1500 give 0.10 and 1500 USD subunits
give 15.00); the Squad webhook has no currency check at all and always
records subunits divided by 100 and by the effective exchange rate. -/
theorem C4_amount_normalization_amended (e : SquadEvent) (reference : String)
    (vtxn : VerifiedTxn) (rate : ℚ) (existing : List String) (db : DB) :
    (db.txns.any (fun t => t.reference = reference) = false →
      (admin_reconcile reference vtxn rate existing db).1.txns =
        db.txns ++ [Txn.mk reference
          (if pyUpper vtxn.currency = "USD" then vtxn.transaction_amount / 100
           else vtxn.transaction_amount / 100 / rate)]) ∧
    (pyLower e.transaction_status = "success" →
      db.txns.any (fun t => t.reference = e.transaction_ref) = false →
      (squad_webhook e db).1.txns =
        db.txns ++ [Txn.mk e.transaction_ref (e.amount / 100 / e.exchange_rate)]) := by
  constructor
  · intro hdup
    unfold admin_reconcile
    simp [hdup]
  · intro hs hdup
    rw [squad_webhook_fresh e db hs hdup]

theorem C4_amount_normalization_amended_witness :
    (admin_reconcile "R1" ⟨1500, "USD", none⟩ 1500 []
      ⟨⟨false, false, .PENDING, none, none, none⟩, []⟩).1.txns = [Txn.mk "R1" 15] ∧
    (squad_webhook ⟨"success", "course_fee", "ASPIR-COURSE-x", 1500, 1500⟩
      ⟨⟨true, false, .PENDING, none, none, none⟩, []⟩).1.txns =
      [Txn.mk "ASPIR-COURSE-x" (1 / 100)] := by
  constructor
  · refine ((C4_amount_normalization_amended
      ⟨"success", "course_fee", "ASPIR-COURSE-x", 1500, 1500⟩ "R1" ⟨1500, "USD", none⟩
      1500 [] ⟨⟨false, false, .PENDING, none, none, none⟩, []⟩).1 (by decide)).trans ?_
    rw [if_pos (by decide)]
    simp
    norm_num
  · refine ((C4_amount_normalization_amended
      ⟨"success", "course_fee", "ASPIR-COURSE-x", 1500, 1500⟩ "R1" ⟨1500, "USD", none⟩
      1500 [] ⟨⟨true, false, .PENDING, none, none, none⟩, []⟩).2 (by decide)
      (by decide)).trans ?_
    simp
    norm_num

theorem generate_keep (existing : List String) (r : Registration) (pid : String)
    (h : r.participant_id = some pid) :
    generate_participant_id existing r = (some pid, r) := by
  unfold generate_participant_id
  rw [h]

/-- C8 counterexample: the normalization command rewrites an already set
participant_id: a registration holding the legacy four-digit ID
ET/ASPIR/C1/0001 comes out holding ET/ASPIR/C1/001, a different value, so
participant_id is not immutable across all operations of the system. -/
theorem C8_counterexample :
    (normalize_handle_one []
      ⟨true, true, .PAID, some "ET/ASPIR/C1/0001", some "C1", none⟩).participant_id =
      some "ET/ASPIR/C1/001" ∧
    (some "ET/ASPIR/C1/001" : Option String) ≠ some "ET/ASPIR/C1/0001" := by
  decide

/-- C8 amended: reconciliation and allocation never change a set
participant_id (the allocator returns the registration unchanged, both
webhooks and the manual reconciliation preserve the field), and the
normalization command leaves an already-canonical ID alone; the normalization
command and the participant-ID file import, however, do rewrite IDs that are
not in canonical form. -/
theorem C8_participant_id_immutability_amended (existing others : List String)
    (r : Registration) (e : SquadEvent) (meta reference : String) (vtxn : VerifiedTxn)
    (rate : ℚ) (db : DB) :
    (∀ pid, r.participant_id = some pid → (generate_participant_id existing r).2 = r) ∧
    ((squad_webhook e db).1.reg.participant_id = db.reg.participant_id) ∧
    ((applyPaystackSuccess meta reference r).participant_id = r.participant_id) ∧
    (∀ pid, db.reg.participant_id = some pid →
      (admin_reconcile reference vtxn rate existing db).1.reg.participant_id = some pid) ∧
    (∀ pid, r.participant_id = some pid → parse_participant_id_to_canonical pid = some pid →
      normalize_handle_one others r = r) := by
  refine ⟨?_, ?_, ?_, ?_, ?_⟩
  · intro pid hpid
    rw [generate_keep existing r pid hpid]
  · by_cases hs : pyLower e.transaction_status = "success"
    · by_cases hdup : db.txns.any (fun t => t.reference = e.transaction_ref) = true
      · rw [squad_webhook_dup e db hs hdup]
        exact applySquad_pid _ _ _
      · have hdupf : db.txns.any (fun t => t.reference = e.transaction_ref) = false := by
          simpa using hdup
        rw [squad_webhook_fresh e db hs hdupf]
        exact applySquad_pid _ _ _
    · unfold squad_webhook
      simp [hs]
  · rw [applyPaystack_eq]
    exact applySquad_pid _ _ _
  · intro pid hpid
    unfold admin_reconcile
    by_cases hdup : db.txns.any (fun t => t.reference = reference) = true
    · simp [hdup, hpid]
    · have hdupf : db.txns.any (fun t => t.reference = reference) = false := by
        simpa using hdup
      simp only [hdupf, Bool.false_eq_true, if_false]
      have hr' : ∀ pt, (adminApplySuccess pt reference db.reg).participant_id = some pid := by
        intro pt
        rw [adminApply_pid]
        exact hpid
      have key : ∀ (pt : String) (c : Prop) (hc : Decidable c),
          (@ite _ c hc
            (generate_participant_id existing (adminApplySuccess pt reference db.reg)).2
            (adminApplySuccess pt reference db.reg)).participant_id = some pid := by
        intro pt c hc
        split
        · rw [generate_keep existing _ pid (hr' pt)]
          exact hr' pt
        · exact hr' pt
      exact key _ _ _
  · intro pid hpid hcanon
    unfold normalize_handle_one
    rw [hpid]
    by_cases h0 : pid = ""
    · simp [h0]
    · simp [h0, hcanon]

theorem C8_participant_id_immutability_amended_witness :
    (generate_participant_id ["ET/ASPIR/C1/001"]
      ⟨true, true, .PAID, some "ET/ASPIR/C1/001", some "C1", none⟩).2 =
      ⟨true, true, .PAID, some "ET/ASPIR/C1/001", some "C1", none⟩ ∧
    (admin_reconcile "ASPIR-COURSE-x" ⟨15000, "USD", none⟩ 1500 []
      ⟨⟨true, false, .PENDING, some "ET/ASPIR/C1/001", some "C1", none⟩, []⟩).1.reg.participant_id =
      some "ET/ASPIR/C1/001" ∧
    normalize_handle_one ["ET/ASPIR/C1/002"]
      ⟨true, true, .PAID, some "ET/ASPIR/C1/001", some "C1", none⟩ =
      ⟨true, true, .PAID, some "ET/ASPIR/C1/001", some "C1", none⟩ := by
  refine ⟨?_, ?_, ?_⟩
  · exact (C8_participant_id_immutability_amended ["ET/ASPIR/C1/001"] []
      ⟨true, true, .PAID, some "ET/ASPIR/C1/001", some "C1", none⟩
      ⟨"success", "course_fee", "ASPIR-COURSE-x", 1500, 1500⟩ "" "ASPIR-COURSE-x"
      ⟨15000, "USD", none⟩ 1500
      ⟨⟨true, false, .PENDING, some "ET/ASPIR/C1/001", some "C1", none⟩, []⟩).1
      "ET/ASPIR/C1/001" rfl
  · exact (C8_participant_id_immutability_amended [] []
      ⟨true, true, .PAID, some "ET/ASPIR/C1/001", some "C1", none⟩
      ⟨"success", "course_fee", "ASPIR-COURSE-x", 1500, 1500⟩ "" "ASPIR-COURSE-x"
      ⟨15000, "USD", none⟩ 1500
      ⟨⟨true, false, .PENDING, some "ET/ASPIR/C1/001", some "C1", none⟩, []⟩).2.2.2.1
      "ET/ASPIR/C1/001" rfl
  · exact (C8_participant_id_immutability_amended [] ["ET/ASPIR/C1/002"]
      ⟨true, true, .PAID, some "ET/ASPIR/C1/001", some "C1", none⟩
      ⟨"success", "course_fee", "ASPIR-COURSE-x", 1500, 1500⟩ "" "ASPIR-COURSE-x"
      ⟨15000, "USD", none⟩ 1500
      ⟨⟨true, false, .PENDING, some "ET/ASPIR/C1/001", some "C1", none⟩, []⟩).2.2.2.2
      "ET/ASPIR/C1/001" rfl (by decide)

theorem foldl_max_g (g : Nat → Nat) : ∀ (vs : List Nat) (a : Nat),
    vs.foldl (fun acc v => Nat.max acc (g v)) a =
      Nat.max a (vs.foldl (fun acc v => Nat.max acc (g v)) 0) := by
  intro vs
  induction vs with
  | nil => intro a; simp
  | cons v t ih =>
    intro a
    simp only [List.foldl_cons]
    rw [ih (Nat.max a (g v)), ih (Nat.max 0 (g v))]
    simp [Nat.zero_max, Nat.max_assoc]

theorem foldl_max_init : ∀ (vs : List Nat) (a : Nat),
    vs.foldl Nat.max a = Nat.max a (vs.foldl Nat.max 0) := by
  intro vs
  induction vs with
  | nil => intro a; simp
  | cons v t ih =>
    intro a
    simp only [List.foldl_cons]
    rw [ih (Nat.max a v), ih (Nat.max 0 v)]
    simp [Nat.zero_max, Nat.max_assoc]

theorem seqVals_fold (ids : List String) : ∀ (a : Nat),
    ids.foldl
      (fun acc p =>
        let part := lastSeg p
        if isDigits part then Nat.max acc (digitsToNat part + 1) else acc)
      a =
    (seqVals ids).foldl (fun acc v => Nat.max acc (v + 1)) a := by
  induction ids with
  | nil => intro a; simp [seqVals]
  | cons p t ih =>
    intro a
    simp only [List.foldl_cons, seqVals, List.filterMap_cons]
    by_cases hd : isDigits (lastSeg p) = true
    · simp only [hd, if_true]
      rw [ih]
      simp [seqVals]
    · simp only [Bool.not_eq_true] at hd
      simp only [hd, Bool.false_eq_true, if_false]
      rw [ih]
      simp [seqVals]

theorem M_succ : ∀ (vs : List Nat), vs ≠ [] →
    vs.foldl (fun acc v => Nat.max acc (v + 1)) 0 = vs.foldl Nat.max 0 + 1 := by
  intro vs
  induction vs with
  | nil => intro h; exact absurd rfl h
  | cons v t ih =>
    intro _
    by_cases ht : t = []
    · subst ht; simp
    · simp only [List.foldl_cons]
      rw [foldl_max_g (fun v => v + 1) t, foldl_max_init t]
      rw [ih ht]
      simp only [Nat.zero_max]
      exact Nat.succ_max_succ v _

theorem nextSeqFold_eq_spec (ids : List String) : nextSeqFold ids = nextSeqSpec ids := by
  unfold nextSeqFold nextSeqSpec
  rw [seqVals_fold ids 1]
  cases hv : seqVals ids with
  | nil => simp
  | cons v t =>
    simp only
    rw [foldl_max_g (fun v => v + 1) (v :: t) 1]
    rw [M_succ (v :: t) (by simp)]
    exact Nat.max_eq_right (Nat.succ_le_succ (Nat.zero_le _))

set_option maxRecDepth 10000 in
theorem pad3_len : ∀ n, n < 1000 → (pad3 n).length = 3 := by
  decide

/-- C6 counterexample: with an existing ID of sequence 999 in the cohort, the
allocator assigns ET/ASPIR/C1/1000, whose sequence segment has 4 digits — the
sequence is zero-padded to a minimum of 3 digits, not to exactly 3. -/
theorem C6_counterexample :
    (generate_participant_id ["ET/ASPIR/C1/999"]
      ⟨false, false, .PENDING, none, some "C1", none⟩).1 = some "ET/ASPIR/C1/1000" ∧
    (lastSeg "ET/ASPIR/C1/1000").length ≠ 3 := by
  decide

/-- C6 amended: for a registration with a cohort and no participant_id, the
allocator assigns ET/ASPIR/cohort_code/pad3(seq) where seq is the maximum of
the trailing numeric segments over the existing IDs sharing the
ET/ASPIR/cohort_code/ prefix plus one (1 when none exist), and the sequence
segment is zero-padded to a minimum of 3 digits — exactly 3 whenever the
sequence is at most 999. -/
theorem C6_allocator_sequence_amended (existing : List String) (r : Registration)
    (code : String) (h1 : r.participant_id = none) (h2 : r.cohort = some code)
    (h3 : pyUpper (pyStrip code) ≠ "") :
    generate_participant_id existing r =
      (some (allocSpecId existing code),
       { r with participant_id := some (allocSpecId existing code) }) ∧
    (∀ c n, format_participant_id_canonical c n =
      "ET/ASPIR/" ++ pyUpper (pyStrip c) ++ "/" ++ pad3 n) ∧
    (∀ n, n < 1000 → (pad3 n).length = 3) := by
  refine ⟨?_, fun c n => rfl, pad3_len⟩
  simp only [generate_participant_id, h1, h2]
  rw [if_neg h3]
  rw [nextSeqFold_eq_spec]
  rfl

theorem C6_allocator_sequence_amended_witness :
    (generate_participant_id ["ET/ASPIR/C1/003", "ET/ASPIR/C2/009"]
      ⟨false, false, .PENDING, none, some " c1 ", none⟩).1 = some "ET/ASPIR/C1/004" ∧
    (pad3 4).length = 3 := by
  have h := C6_allocator_sequence_amended ["ET/ASPIR/C1/003", "ET/ASPIR/C2/009"]
    ⟨false, false, .PENDING, none, some " c1 ", none⟩ " c1 " rfl rfl (by decide)
  constructor
  · exact (congrArg Prod.fst h.1).trans (by decide)
  · exact h.2.2 4 (by decide)

end Elevate
